import Mathlib

/-!
Shallow embedding of `scarb/src/core/config.rs` (the `Config` execution
context of the Scarb build tool) together with theorems checking the
specification claims about it.

Modelling conventions:
- Filesystem paths (`Utf8PathBuf` / `PathBuf`) become `FsPath`: an
  absoluteness flag plus a list of components.
- OS state read by `Config` (environment variables, `current_exe`,
  `argv`, the working directory, `canonicalize`, file-executability)
  becomes an explicit `World` record passed to each operation.
- `anyhow::Error` becomes the inductive `Err`: a leaf message or a
  context message wrapping one cause, mirroring `anyhow::Context`.
- The two `OnceCell` caches become `Option` fields of `Config`, and the
  operations that touch them return the updated `Config` explicitly.
- A Rust panic (the `expect` on the manifest parent) is modelled as the
  `none` branch of an outer `Option` around the `Result` the function
  declares, so `Config.init` has type `Option (Except Err Config)`.
-/

set_option autoImplicit false

/-- A filesystem path: whether it is absolute, and its list of components,
modelling `std::path::PathBuf` and `camino::Utf8PathBuf`. -/
structure FsPath where
  absolute : Bool
  components : List String
deriving DecidableEq, Repr

/-- `Path::parent`: drop the final component; `none` when there is no final
component (the root path or the empty path), as in Rust. -/
def FsPath.parent (p : FsPath) : Option FsPath :=
  match p.components with
  | [] => none
  | _ => some { p with components := p.components.dropLast }

/-- `Path::join` with a single extra component. -/
def FsPath.join (p : FsPath) (c : String) : FsPath :=
  { p with components := p.components ++ [c] }

/-- Resolve `p` against `base` the way the OS does: an absolute `p` stands
alone, a relative `p` is appended to `base`. -/
def FsPath.under (base p : FsPath) : FsPath :=
  if p.absolute then p else { absolute := base.absolute, components := base.components ++ p.components }

/-- Split a character list at the path separator, accumulating the current
component in reverse. -/
def splitComponents : List Char → List Char → List String
  | [], cur => [⟨cur.reverse⟩]
  | c :: cs, cur =>
    if c = '/' then (⟨cur.reverse⟩ : String) :: splitComponents cs []
    else splitComponents cs (c :: cur)

/-- Parse a path string into `FsPath` (mirrors `PathBuf::from` on the strings
the program reads from the environment and from `argv`). Splitting on the
separator keeps `.` as a component, so a bare name has exactly one component
and a dotted relative path such as `./scarb` has more than one. -/
def parsePath (s : String) : FsPath :=
  { absolute := decide (s.data.head? = some '/')
    components := (splitComponents s.data []).filter (fun c => c ≠ "") }

/-- An `anyhow::Error`: a leaf message, or a context message wrapping the
error it was attached to (`anyhow::Context::context`). -/
inductive Err where
  | msg : String → Err
  | ctx : String → Err → Err
deriving DecidableEq, Repr

/-- The display message of the error (the outermost message in the chain). -/
def Err.message : Err → String
  | .msg s => s
  | .ctx s _ => s

/-- Every message reachable in the error chain: the messages an
`anyhow::Error` retains for diagnostics. -/
def Err.causes : Err → List String
  | .msg s => [s]
  | .ctx s e => s :: e.causes

deriving instance DecidableEq for Except

/-- `Result::or_else`: on success keep the value, on failure hand the error
to the fallback closure. -/
def orElseWith {α : Type} (a : Except Err α) (f : Err → Except Err α) : Except Err α :=
  match a with
  | .ok v => .ok v
  | .error e => f e

/-- `anyhow::Context::context` on a `Result`: wrap the error of a failure in
a context message, pass a success through. -/
def withContext {α : Type} (s : String) : Except Err α → Except Err α
  | .ok v => .ok v
  | .error e => .error (.ctx s e)

/-- Modelled from the spec: the name of the designated environment variable
holding an override path to the tool executable (`SCARB_ENV`, declared
outside the sources at hand; the spec calls it the environment override). -/
def SCARB_ENV : String := "SCARB"

/-- Modelled from the spec: the default name of the build-output directory
under the project root (`DEFAULT_TARGET_DIR_NAME`, declared outside the
sources at hand; the spec scenario maps manifest `/proj/Scarb.toml` to
target directory `/proj/target`). -/
def DEFAULT_TARGET_DIR_NAME : String := "target"

/-- Modelled from the spec: the directory layout collaborator (`AppDirs`,
declared outside the sources at hand). The spec requires it to expose a
cache directory able to host the package-cache lock file and a PATH-style
search path for argv0 resolution. -/
structure AppDirs where
  pathEnv : List FsPath
  cacheDir : FsPath
deriving DecidableEq, Repr

/-- The UI handle collaborator; none of the claims depend on its content. -/
structure Ui where
  token : Unit
deriving DecidableEq, Repr

/-- Modelled from the spec: the advisory lock handle (`AdvisoryLock`,
declared outside the sources at hand): a handle over a fixed sub-path of
the package-cache directory with a human label. -/
structure AdvisoryLock where
  path : FsPath
  description : String
deriving DecidableEq, Repr

/-- Modelled from the spec: `Filesystem::advisory_lock` (declared outside
the sources at hand) infallibly builds the handle for a given relative
name and label under a directory; acquisition happens later and is not
part of handle construction. -/
def advisoryLock (dir : FsPath) (name description : String) : AdvisoryLock :=
  { path := dir.join name, description := description }

/-- The OS state the `Config` operations read: environment variables,
`env::current_exe`, `env::args_os`, `env::current_dir`,
`Path::canonicalize` (`none` when the path does not exist or cannot be
canonicalized), which files are executable (for the PATH search), and the
current instant. -/
structure World where
  envVar : String → Option String
  currentExe : Option FsPath
  argv : List String
  cwd : Option FsPath
  canon : FsPath → Option FsPath
  isExecFile : FsPath → Bool
  now : Nat

/-- The `Config` struct of `core/config.rs`. The two `OnceCell` fields are
`Option`s: `none` is the empty cell. -/
structure Config where
  manifestPath : FsPath
  dirs : AppDirs
  targetDir : FsPath
  appExeCell : Option FsPath
  ui : Ui
  creationTime : Nat
  packageCacheLockCell : Option AdvisoryLock
  scarbLog : String
  offline : Bool
deriving DecidableEq, Repr

/-- The target-directory computation inside `Config::init`: an explicit
override is used verbatim; otherwise the parent of the manifest path
(whose absence is a panic, modelled as `none`) joined with the default
target directory name. -/
def initTargetDir (manifestPath : FsPath) (targetDirOverride : Option FsPath) : Option FsPath :=
  match targetDirOverride with
  | some t => some t
  | none => (manifestPath.parent).map (fun p => p.join DEFAULT_TARGET_DIR_NAME)

/-- `Config::init`. The outer `Option` is the `expect` on the manifest
parent (a panic, not an error value); the inner `Except` is the declared
`Result` return type, whose only constructor in the source is `Ok`. The
log filter is seeded from the `SCARB_LOG` environment variable, defaulting
to the empty string. -/
def Config.init (manifestPath : FsPath) (dirs : AppDirs) (ui : Ui)
    (targetDirOverride : Option FsPath) (w : World) : Option (Except Err Config) :=
  (initTargetDir manifestPath targetDirOverride).map (fun targetDir =>
    Except.ok
      { manifestPath := manifestPath
        dirs := dirs
        targetDir := targetDir
        appExeCell := none
        ui := ui
        creationTime := w.now
        packageCacheLockCell := none
        scarbLog := (w.envVar "SCARB_LOG").getD ""
        offline := false })

/-- `Config::root`: the parent of the manifest path; its absence is a panic
(`expect`), modelled as `none`. -/
def Config.root (c : Config) : Option FsPath :=
  c.manifestPath.parent

/-- `Config::offline`. -/
def Config.offlineFlag (c : Config) : Bool :=
  c.offline

/-- `Config::set_offline`: unconditionally replace the stored flag. -/
def Config.setOffline (c : Config) (b : Bool) : Config :=
  { c with offline := b }

/-- `Config::network_allowed`: the negation of the offline flag. -/
def Config.networkAllowed (c : Config) : Bool :=
  !c.offline

/-- Strategy 1 of `Config::app_exe` (`from_env`): read the override
environment variable, fail if unset, then canonicalize the named path,
failing if it does not canonicalize. -/
def fromEnv (w : World) : Except Err FsPath :=
  match w.envVar SCARB_ENV with
  | none => .error (.msg ("$" ++ SCARB_ENV ++ " not set"))
  | some s =>
    match w.canon (parsePath s) with
    | some p => .ok p
    | none => .error (.msg "canonicalize failed")

/-- Strategy 2 of `Config::app_exe` (`from_current_exe`): ask the OS for
the running executable (can be unavailable), then canonicalize it. -/
def fromCurrentExe (w : World) : Except Err FsPath :=
  match w.currentExe with
  | none => .error (.msg "current_exe failed")
  | some p =>
    match w.canon p with
    | some q => .ok q
    | none => .error (.msg "canonicalize failed")

/-- Modelled from the spec: the `which_in` collaborator used by the argv0
strategy. Given a binary name, a search path and the working directory: a
bare name (relative, single component) is searched along the search path,
returning the first matching executable; a multi-component or absolute
path is canonicalized directly (relative ones against the working
directory). -/
def whichIn (w : World) (searchPath : List FsPath) (cwd : FsPath) (binary : FsPath) : Except Err FsPath :=
  if !binary.absolute && binary.components.length == 1 then
    match (searchPath.map (fun d => (FsPath.under cwd d).join (binary.components.headD ""))).find? w.isExecFile with
    | some p => .ok p
    | none => .error (.msg "cannot find binary path")
  else
    match w.canon (FsPath.under cwd binary) with
    | some p => .ok p
    | none => .error (.msg "cannot find binary path")

/-- Strategy 3 of `Config::app_exe` (`from_argv`): take `argv[0]` (failing
when absent), take the current directory (failing when unavailable), and
resolve via the `which_in` collaborator against the directory layout
search path. -/
def fromArgv (dirs : AppDirs) (w : World) : Except Err FsPath :=
  match (w.argv.map parsePath).head? with
  | none => .error (.msg "no argv[0]")
  | some argv0 =>
    match w.cwd with
    | none => .error (.msg "current_dir failed")
    | some cwd => whichIn w dirs.pathEnv cwd argv0

/-- The resolution chain of `Config::app_exe`:
`from_env().or_else(|_| from_current_exe()).or_else(|_| from_argv())`
followed by `.context("could not get the path to scarb executable")`.
Each `or_else` closure ignores the error it is handed, exactly as the
`|_|` patterns in the source do. -/
def appExeResolve (dirs : AppDirs) (w : World) : Except Err FsPath :=
  withContext "could not get the path to scarb executable"
    (orElseWith (orElseWith (fromEnv w) (fun _ => fromCurrentExe w)) (fun _ => fromArgv dirs w))

/-- `Config::app_exe`: `OnceCell::get_or_try_init` over the resolution
chain. A full cell is returned as-is; an empty cell runs the chain and
stores the value only on success, leaving the cell empty on failure. -/
def Config.appExe (c : Config) (w : World) : Except Err FsPath × Config :=
  match c.appExeCell with
  | some p => (.ok p, c)
  | none =>
    match appExeResolve c.dirs w with
    | .ok p => (.ok p, { c with appExeCell := some p })
    | .error e => (.error e, c)

/-- `Config::package_cache_lock`: `OnceCell::get_or_init` whose initializer
infallibly builds the advisory lock handle for `.package-cache.lock` with
label `package cache` under the cache directory. A full cell is returned
as-is; an empty cell is filled with the freshly built handle. -/
def Config.packageCacheLock (c : Config) : AdvisoryLock × Config :=
  match c.packageCacheLockCell with
  | some l => (l, c)
  | none =>
    let l := advisoryLock c.dirs.cacheDir ".package-cache.lock" "package cache"
    (l, { c with packageCacheLockCell := some l })

/-- A concrete directory layout: search path `[/usr/bin]`, cache directory
`/cache`. -/
def dirs0 : AppDirs :=
  { pathEnv := [⟨true, ["usr", "bin"]⟩], cacheDir := ⟨true, ["cache"]⟩ }

/-- A concrete UI handle. -/
def ui0 : Ui := ⟨()⟩

/-- A world in which every resolution strategy fails: no environment
variables, no current-exe support, a bare `argv[0]` that is nowhere on the
search path, and a filesystem on which nothing canonicalizes. -/
def w0 : World :=
  { envVar := fun _ => none
    currentExe := none
    argv := ["scarb"]
    cwd := some ⟨true, []⟩
    canon := fun _ => none
    isExecFile := fun _ => false
    now := 0 }

/-- A world in which the environment override is set to `/opt/scarb`, which
canonicalizes to `/opt/scarb-bin`, while the other two strategies would
also succeed with different paths. -/
def wEnvOk : World :=
  { envVar := fun s => if s = "SCARB" then some "/opt/scarb" else none
    currentExe := some ⟨true, ["bin", "other"]⟩
    argv := ["scarb"]
    cwd := some ⟨true, []⟩
    canon := fun p => if p = ⟨true, ["opt", "scarb"]⟩ then some ⟨true, ["opt", "scarb-bin"]⟩ else some p
    isExecFile := fun _ => true
    now := 0 }

/-- A world in which the environment override is unset and self
introspection reports `/bin/scarb`, which canonicalizes to itself. -/
def wExeOk : World :=
  { envVar := fun _ => none
    currentExe := some ⟨true, ["bin", "scarb"]⟩
    argv := ["scarb"]
    cwd := some ⟨true, []⟩
    canon := fun p => some p
    isExecFile := fun _ => true
    now := 0 }

/-- A world in which the first two strategies fail and `argv[0]` is the bare
name `scarb`, found on the search path at `/usr/bin/scarb`. -/
def wArgvOk : World :=
  { envVar := fun _ => none
    currentExe := none
    argv := ["scarb"]
    cwd := some ⟨true, []⟩
    canon := fun p => some p
    isExecFile := fun p => if p = ⟨true, ["usr", "bin", "scarb"]⟩ then true else false
    now := 0 }

/-- A world in which the first two strategies fail and `argv[0]` is the
multi-component relative path `./scarb`, which canonicalizes under the
working directory `/home` to `/home/scarb`. -/
def wMulti : World :=
  { envVar := fun _ => none
    currentExe := none
    argv := ["./scarb"]
    cwd := some ⟨true, ["home"]⟩
    canon := fun p => if p = ⟨true, ["home", ".", "scarb"]⟩ then some ⟨true, ["home", "scarb"]⟩ else none
    isExecFile := fun _ => false
    now := 0 }

/-- A concrete configuration with both lazy caches empty, as produced by
`Config.init` for the manifest `/proj/Scarb.toml` in the world `w0`. -/
def cfg0 : Config :=
  { manifestPath := ⟨true, ["proj", "Scarb.toml"]⟩
    dirs := dirs0
    targetDir := ⟨true, ["proj", "target"]⟩
    appExeCell := none
    ui := ui0
    creationTime := 0
    packageCacheLockCell := none
    scarbLog := ""
    offline := false }

/-- Claim C8: `network_allowed` always equals the negation of `offline`, and
`set_offline` unconditionally replaces the stored flag: after
`set_offline b`, `offline` returns `b` and `network_allowed` returns
`not b`. -/
theorem c8_network_allowed_negates_offline (c : Config) (b : Bool) :
    (c.setOffline b).offlineFlag = b ∧
    (c.setOffline b).networkAllowed = !b ∧
    c.networkAllowed = !c.offlineFlag := by
  simp [Config.setOffline, Config.offlineFlag, Config.networkAllowed]

/-- Claim C6: `package_cache_lock` is idempotent and cached after its first
construction: a second call returns the same handle and leaves the
configuration unchanged, so at most one lock object is ever constructed. -/
theorem c6_package_cache_lock_idempotent (c : Config) :
    (c.packageCacheLock.2.packageCacheLock).1 = c.packageCacheLock.1 ∧
    (c.packageCacheLock.2.packageCacheLock).2 = c.packageCacheLock.2 := by
  cases hc : c.packageCacheLockCell <;> simp [Config.packageCacheLock, hc]

/-- Claim C2, counterexample: in the source, `package_cache_lock` fills its
`OnceCell` with `get_or_init` whose initializer returns the advisory-lock
handle directly, with no fallible step, so the failure path the claim
describes does not exist. At a concrete configuration with an empty cell,
the first call returns the freshly built handle and the success is cached
immediately: construction cannot fail, hence no failure is ever surfaced
to a caller and there is no failed construction to retry. -/
theorem c2_lock_construction_infallible_cex :
    cfg0.packageCacheLock.1 = advisoryLock dirs0.cacheDir ".package-cache.lock" "package cache" ∧
    cfg0.packageCacheLock.2.packageCacheLockCell =
      some (advisoryLock dirs0.cacheDir ".package-cache.lock" "package cache") := by
  constructor <;> rfl

/-- Claim C2, amended: constructing the package-cache lock handle never
fails: every call to `package_cache_lock` succeeds, and afterwards the
cache cell holds exactly the handle that was returned. -/
theorem c2_amended_lock_construction_never_fails (c : Config) :
    c.packageCacheLock.2.packageCacheLockCell = some c.packageCacheLock.1 := by
  cases hc : c.packageCacheLockCell <;> simp [Config.packageCacheLock, hc]

/-- Claim C7: when the manifest path has a parent, `init` without a
target-directory override succeeds, `root` returns the parent of the
manifest path, and the target directory is that parent joined with the
default target name. -/
theorem c7_root_and_default_target (m : FsPath) (dirs : AppDirs) (ui : Ui) (w : World)
    (pr : FsPath) (h : m.parent = some pr) :
    ∃ cfg, Config.init m dirs ui none w = some (Except.ok cfg) ∧
      cfg.root = some pr ∧
      cfg.targetDir = pr.join DEFAULT_TARGET_DIR_NAME := by
  refine ⟨{ manifestPath := m, dirs := dirs, targetDir := pr.join DEFAULT_TARGET_DIR_NAME,
            appExeCell := none, ui := ui, creationTime := w.now,
            packageCacheLockCell := none, scarbLog := (w.envVar "SCARB_LOG").getD "",
            offline := false }, ?_, ?_, ?_⟩
  · simp [Config.init, initTargetDir, h]
  · simp [Config.root, h]
  · rfl

/-- Witness for claim C7, at the concrete scenario of the spec: manifest
`/proj/Scarb.toml`, no override, no environment variable set. -/
theorem c7_root_and_default_target_witness :
    (⟨true, ["proj", "Scarb.toml"]⟩ : FsPath).parent = some ⟨true, ["proj"]⟩ ∧
    (∃ cfg, Config.init ⟨true, ["proj", "Scarb.toml"]⟩ dirs0 ui0 none w0 = some (Except.ok cfg) ∧
      cfg.root = some ⟨true, ["proj"]⟩ ∧
      cfg.targetDir = FsPath.join ⟨true, ["proj"]⟩ DEFAULT_TARGET_DIR_NAME) ∧
    FsPath.join ⟨true, ["proj"]⟩ DEFAULT_TARGET_DIR_NAME = ⟨true, ["proj", "target"]⟩ :=
  ⟨by decide, c7_root_and_default_target ⟨true, ["proj", "Scarb.toml"]⟩ dirs0 ui0 w0
      ⟨true, ["proj"]⟩ (by decide), by decide⟩

/-- Claim C9: whenever `init` returns a configuration, its offline flag
starts false, both lazy caches start empty, and the log filter is seeded
from the `SCARB_LOG` environment variable, defaulting to the empty string
when it is unset. -/
theorem c9_init_seeds_log_filter_and_empty_caches (m : FsPath) (dirs : AppDirs) (ui : Ui)
    (ov : Option FsPath) (w : World) (cfg : Config)
    (h : Config.init m dirs ui ov w = some (Except.ok cfg)) :
    cfg.offline = false ∧ cfg.appExeCell = none ∧ cfg.packageCacheLockCell = none ∧
    (w.envVar "SCARB_LOG" = none → cfg.scarbLog = "") ∧
    (∀ s, w.envVar "SCARB_LOG" = some s → cfg.scarbLog = s) := by
  rcases Option.map_eq_some'.mp h with ⟨td, htd, hok⟩
  injection hok with hcfg
  subst hcfg
  refine ⟨rfl, rfl, rfl, ?_, ?_⟩
  · intro hn
    simp [hn]
  · intro s hs
    simp [hs]

/-- Witness for claim C9, at the manifest `/proj/Scarb.toml` in the world
`w0`, where no environment variable is set. -/
theorem c9_init_seeds_witness :
    Config.init ⟨true, ["proj", "Scarb.toml"]⟩ dirs0 ui0 none w0 = some (Except.ok cfg0) ∧
    (cfg0.offline = false ∧ cfg0.appExeCell = none ∧ cfg0.packageCacheLockCell = none ∧
      (w0.envVar "SCARB_LOG" = none → cfg0.scarbLog = "") ∧
      (∀ s, w0.envVar "SCARB_LOG" = some s → cfg0.scarbLog = s)) :=
  ⟨by rfl, c9_init_seeds_log_filter_and_empty_caches ⟨true, ["proj", "Scarb.toml"]⟩ dirs0 ui0
      none w0 cfg0 (by rfl)⟩

/-- Claim C3: the three resolution strategies of `app_exe` run in the fixed
order environment override, self-introspection, argv resolution; the first
success wins. In particular a successful environment override decides the
result regardless of the other strategies, and each later strategy decides
the result only when every earlier one failed. -/
theorem c3_strategy_order_first_success_wins (dirs : AppDirs) (w : World) :
    (∀ p, fromEnv w = Except.ok p → appExeResolve dirs w = Except.ok p) ∧
    (∀ e p, fromEnv w = Except.error e → fromCurrentExe w = Except.ok p →
      appExeResolve dirs w = Except.ok p) ∧
    (∀ e1 e2 p, fromEnv w = Except.error e1 → fromCurrentExe w = Except.error e2 →
      fromArgv dirs w = Except.ok p → appExeResolve dirs w = Except.ok p) := by
  refine ⟨?_, ?_, ?_⟩ <;> intros <;> simp_all [appExeResolve, orElseWith, withContext]

/-- Witness for claim C3: one world per strategy. In `wEnvOk` the override
wins even though the other strategies would yield different paths; in
`wExeOk` the override is unset and self-introspection wins; in `wArgvOk`
both earlier strategies fail and argv resolution wins. -/
theorem c3_strategy_order_witness :
    appExeResolve dirs0 wEnvOk = Except.ok ⟨true, ["opt", "scarb-bin"]⟩ ∧
    appExeResolve dirs0 wExeOk = Except.ok ⟨true, ["bin", "scarb"]⟩ ∧
    appExeResolve dirs0 wArgvOk = Except.ok ⟨true, ["usr", "bin", "scarb"]⟩ :=
  ⟨(c3_strategy_order_first_success_wins dirs0 wEnvOk).1 ⟨true, ["opt", "scarb-bin"]⟩ (by decide),
   (c3_strategy_order_first_success_wins dirs0 wExeOk).2.1 (Err.msg "$SCARB not set")
     ⟨true, ["bin", "scarb"]⟩ (by decide) (by decide),
   (c3_strategy_order_first_success_wins dirs0 wArgvOk).2.2 (Err.msg "$SCARB not set")
     (Err.msg "current_exe failed") ⟨true, ["usr", "bin", "scarb"]⟩ (by decide) (by decide) (by decide)⟩

/-- Claim C4: `app_exe` is idempotent after its first success: once a call
succeeds, the path is stored in the cache cell, and a later call in any
world (even one where every strategy would now fail or yield a different
path) returns the same value and leaves the configuration unchanged. -/
theorem c4_app_exe_cached_after_first_success (c : Config) (w1 w2 : World) (p : FsPath)
    (c2 : Config) (h : c.appExe w1 = (Except.ok p, c2)) :
    c2.appExeCell = some p ∧ c2.appExe w2 = (Except.ok p, c2) := by
  rcases hc : c.appExeCell with _ | q
  · rcases hr : appExeResolve c.dirs w1 with e | q
    · simp [Config.appExe, hc, hr] at h
    · simp [Config.appExe, hc, hr] at h
      rcases h with ⟨hq, hcfg⟩
      subst hq
      subst hcfg
      exact ⟨rfl, by simp [Config.appExe]⟩
  · simp [Config.appExe, hc] at h
    rcases h with ⟨hq, hcfg⟩
    subst hq
    subst hcfg
    exact ⟨hc, by simp [Config.appExe, hc]⟩

/-- Witness for claim C4: a first call on `cfg0` in `wEnvOk` succeeds with
`/opt/scarb-bin`; the second call runs in `w0`, where every strategy
fails, and still returns the cached path unchanged. -/
theorem c4_app_exe_cached_witness :
    cfg0.appExe wEnvOk =
      (Except.ok ⟨true, ["opt", "scarb-bin"]⟩,
       { cfg0 with appExeCell := some ⟨true, ["opt", "scarb-bin"]⟩ }) ∧
    ({ cfg0 with appExeCell := some ⟨true, ["opt", "scarb-bin"]⟩} : Config).appExe w0 =
      (Except.ok ⟨true, ["opt", "scarb-bin"]⟩,
       { cfg0 with appExeCell := some ⟨true, ["opt", "scarb-bin"]⟩ }) :=
  ⟨by decide,
   (c4_app_exe_cached_after_first_success cfg0 wEnvOk w0 ⟨true, ["opt", "scarb-bin"]⟩
     { cfg0 with appExeCell := some ⟨true, ["opt", "scarb-bin"]⟩ } (by decide)).2⟩

/-- Claim C5: in the argv strategy, a bare single-component `argv[0]` is
resolved by a PATH-style search over the directory layout search path
(relative entries resolved against the working directory), returning the
first matching executable, while a multi-component or absolute `argv[0]`
is canonicalized directly. -/
theorem c5_argv_bare_search_multi_canonicalize (dirs : AppDirs) (w : World) (a0 : String)
    (rest : List String) (cwd : FsPath) (hargv : w.argv = a0 :: rest)
    (hcwd : w.cwd = some cwd) :
    ((parsePath a0).absolute = false → (parsePath a0).components.length = 1 →
      ∀ p, (dirs.pathEnv.map
          (fun d => (FsPath.under cwd d).join ((parsePath a0).components.headD ""))).find?
          w.isExecFile = some p →
        fromArgv dirs w = Except.ok p) ∧
    (((parsePath a0).absolute = true ∨ (parsePath a0).components.length ≠ 1) →
      ∀ p, w.canon (FsPath.under cwd (parsePath a0)) = some p →
        fromArgv dirs w = Except.ok p) := by
  constructor
  · intro habs hlen p hfind
    have hcond : (!(parsePath a0).absolute && ((parsePath a0).components.length == 1)) = true := by
      simp [habs, hlen]
    simp only [fromArgv, hargv, List.map_cons, List.head?_cons, hcwd, whichIn, hcond, if_true]
    rw [hfind]
  · intro hmulti p hcanon
    have hcond : (!(parsePath a0).absolute && ((parsePath a0).components.length == 1)) = false := by
      rcases hmulti with h | h
      · simp [h]
      · have hlen2 : ((parsePath a0).components.length == 1) = false := beq_eq_false_iff_ne.mpr h
        simp [hlen2]
    simp only [fromArgv, hargv, List.map_cons, List.head?_cons, hcwd, whichIn, hcond,
      Bool.false_eq_true, if_false]
    rw [hcanon]

/-- Witness for claim C5: in `wArgvOk` the bare name `scarb` is found by the
search at `/usr/bin/scarb`; in `wMulti` the multi-component `./scarb`
canonicalizes under `/home` to `/home/scarb`. -/
theorem c5_argv_resolution_witness :
    fromArgv dirs0 wArgvOk = Except.ok ⟨true, ["usr", "bin", "scarb"]⟩ ∧
    fromArgv dirs0 wMulti = Except.ok ⟨true, ["home", "scarb"]⟩ :=
  ⟨(c5_argv_bare_search_multi_canonicalize dirs0 wArgvOk "scarb" [] ⟨true, []⟩ rfl rfl).1
      (by decide) (by decide) ⟨true, ["usr", "bin", "scarb"]⟩ (by decide),
   (c5_argv_bare_search_multi_canonicalize dirs0 wMulti "./scarb" [] ⟨true, ["home"]⟩ rfl rfl).2
      (Or.inr (by decide)) ⟨true, ["home", "scarb"]⟩ (by decide)⟩

/-- Claim C1, counterexample: in the world `w0` every strategy fails, and
the combined error of `app_exe` keeps only the cause of the last (argv)
attempt under the context message
`could not get the path to scarb executable`. The claim fails twice: the
message is not `could not get the path to the executable`, and the root
causes of the environment-override and self-introspection attempts are
dropped by the `or_else` closures rather than retained. -/
theorem c1_total_failure_counterexample :
    fromEnv w0 = Except.error (Err.msg "$SCARB not set") ∧
    fromCurrentExe w0 = Except.error (Err.msg "current_exe failed") ∧
    fromArgv dirs0 w0 = Except.error (Err.msg "cannot find binary path") ∧
    appExeResolve dirs0 w0 =
      Except.error (Err.ctx "could not get the path to scarb executable"
        (Err.msg "cannot find binary path")) ∧
    (Err.ctx "could not get the path to scarb executable"
        (Err.msg "cannot find binary path")).message ≠
      "could not get the path to the executable" ∧
    "$SCARB not set" ∉ (Err.ctx "could not get the path to scarb executable"
        (Err.msg "cannot find binary path")).causes ∧
    "current_exe failed" ∉ (Err.ctx "could not get the path to scarb executable"
        (Err.msg "cannot find binary path")).causes := by
  refine ⟨by decide, by decide, by decide, by decide, by decide, by decide, by decide⟩

/-- Claim C1, amended: if all three strategies fail, `app_exe` fails with an
error whose message is `could not get the path to scarb executable` and
whose context retains exactly the root cause of the last (argv) attempt;
the causes of the first two attempts are dropped. -/
theorem c1_amended_total_failure_error (dirs : AppDirs) (w : World) (e1 e2 e3 : Err)
    (h1 : fromEnv w = Except.error e1) (h2 : fromCurrentExe w = Except.error e2)
    (h3 : fromArgv dirs w = Except.error e3) :
    appExeResolve dirs w =
      Except.error (Err.ctx "could not get the path to scarb executable" e3) := by
  simp [appExeResolve, orElseWith, withContext, h1, h2, h3]

/-- Witness for the amended claim C1, in the world `w0` where all three
strategies fail. -/
theorem c1_amended_total_failure_witness :
    appExeResolve dirs0 w0 =
      Except.error (Err.ctx "could not get the path to scarb executable"
        (Err.msg "cannot find binary path")) :=
  c1_amended_total_failure_error dirs0 w0 (Err.msg "$SCARB not set")
    (Err.msg "current_exe failed") (Err.msg "cannot find binary path")
    (by decide) (by decide) (by decide)

/-- Claim C10: `init` never returns an error value: for every input whose
manifest path has a parent it returns a configuration wrapped in `Ok`,
despite the declared fallible type; and a failed `app_exe` resolution is
not memoized: the call leaves the configuration unchanged with an empty
cache cell, so a later call re-runs the strategies and succeeds whenever
the resolution chain then succeeds. -/
theorem c10_init_ok_and_failure_not_memoized :
    (∀ (m : FsPath) (dirs : AppDirs) (ui : Ui) (ov : Option FsPath) (w : World) (pr : FsPath),
      m.parent = some pr → ∃ cfg, Config.init m dirs ui ov w = some (Except.ok cfg)) ∧
    (∀ (c : Config) (w : World) (e : Err) (c2 : Config),
      c.appExe w = (Except.error e, c2) →
        c2 = c ∧ c2.appExeCell = none ∧
        ∀ (w2 : World) (p : FsPath), appExeResolve c2.dirs w2 = Except.ok p →
          (c2.appExe w2).1 = Except.ok p) := by
  constructor
  · intro m dirs ui ov w pr hp
    rcases ov with _ | t
    · exact ⟨{ manifestPath := m, dirs := dirs, targetDir := pr.join DEFAULT_TARGET_DIR_NAME,
               appExeCell := none, ui := ui, creationTime := w.now, packageCacheLockCell := none,
               scarbLog := (w.envVar "SCARB_LOG").getD "", offline := false },
        by simp [Config.init, initTargetDir, hp]⟩
    · exact ⟨{ manifestPath := m, dirs := dirs, targetDir := t,
               appExeCell := none, ui := ui, creationTime := w.now, packageCacheLockCell := none,
               scarbLog := (w.envVar "SCARB_LOG").getD "", offline := false },
        by simp [Config.init, initTargetDir]⟩
  · intro c w e c2 h
    rcases hc : c.appExeCell with _ | q
    · rcases hr : appExeResolve c.dirs w with e2 | q
      · simp [Config.appExe, hc, hr] at h
        rcases h with ⟨he, hcfg⟩
        subst hcfg
        refine ⟨rfl, hc, ?_⟩
        intro w2 p hp2
        simp [Config.appExe, hc, hp2]
      · simp [Config.appExe, hc, hr] at h
    · simp [Config.appExe, hc] at h

/-- Witness for claim C10: the manifest `/proj/Scarb.toml` has parent
`/proj`, so `init` returns `Ok`; and in `w0` every strategy fails on
`cfg0`, the failure is not cached, and the same configuration then
succeeds in `wEnvOk`. -/
theorem c10_init_ok_and_failure_not_memoized_witness :
    (∃ cfg, Config.init ⟨true, ["proj", "Scarb.toml"]⟩ dirs0 ui0 none w0 =
      some (Except.ok cfg)) ∧
    (cfg0 = cfg0 ∧ cfg0.appExeCell = none ∧
      ∀ (w2 : World) (p : FsPath), appExeResolve cfg0.dirs w2 = Except.ok p →
        (cfg0.appExe w2).1 = Except.ok p) ∧
    (cfg0.appExe wEnvOk).1 = Except.ok ⟨true, ["opt", "scarb-bin"]⟩ :=
  ⟨(c10_init_ok_and_failure_not_memoized).1 ⟨true, ["proj", "Scarb.toml"]⟩ dirs0 ui0 none w0
      ⟨true, ["proj"]⟩ (by decide),
   (c10_init_ok_and_failure_not_memoized).2 cfg0 w0
      (Err.ctx "could not get the path to scarb executable" (Err.msg "cannot find binary path"))
      cfg0 (by decide),
   ((c10_init_ok_and_failure_not_memoized).2 cfg0 w0
      (Err.ctx "could not get the path to scarb executable" (Err.msg "cannot find binary path"))
      cfg0 (by decide)).2.2 wEnvOk ⟨true, ["opt", "scarb-bin"]⟩ (by decide)⟩
